import Mathlib

/-!
Verification of the risk-gated trading-bot signal engine (src/index.ts).

The embedding models JavaScript numbers as either a rational or NaN
(`JsVal`), so that the permissive `parseFloat` coercions and NaN
propagation of the source are captured.  Stateful code (the
`TradingBotState` durable object, the per-day watchlist cache, the
orchestrating run) is embedded as pure state-passing functions, with an
explicit effect record counting the external fetches a run performs.
-/

namespace TradingBot

/-- A JavaScript number: either an actual (finite) rational or NaN.
Infinities do not arise on the paths modelled here, so they are omitted. -/
inductive JsVal where
  | nan : JsVal
  | num (q : ℚ) : JsVal
deriving DecidableEq, Repr

namespace JsVal

/-- JS subtraction; NaN propagates. -/
def sub : JsVal → JsVal → JsVal
  | num a, num b => num (a - b)
  | _, _ => nan

/-- JS multiplication; NaN propagates. -/
def mul : JsVal → JsVal → JsVal
  | num a, num b => num (a * b)
  | _, _ => nan

/-- JS `Math.abs`; NaN propagates. -/
def abs : JsVal → JsVal
  | num a => num |a|
  | nan => nan

/-- JS unary minus; NaN propagates. -/
def neg : JsVal → JsVal
  | num a => num (-a)
  | nan => nan

/-- JS `<=`: false whenever either operand is NaN. -/
def jsLe : JsVal → JsVal → Bool
  | num a, num b => a ≤ b
  | _, _ => false

/-- JS `<`: false whenever either operand is NaN. -/
def jsLt : JsVal → JsVal → Bool
  | num a, num b => a < b
  | _, _ => false

end JsVal

/-- Accumulate a decimal-digit run: returns (value, digit count, rest). -/
def parseNatAux : List Char → ℕ → ℕ → ℕ × ℕ × List Char
  | [], acc, n => (acc, n, [])
  | c :: cs, acc, n =>
    if c.isDigit then parseNatAux cs (acc * 10 + (c.toNat - 48)) (n + 1)
    else (acc, n, c :: cs)

/-- JS `parseFloat` on the decimal forms the program feeds it: optional
sign, integer digits, optional fraction.  A string with no leading
numeric prefix parses to NaN.  (Exponents, hex and `Infinity` never occur
on the modelled inputs.) -/
def parseFloatJs (s : String) : JsVal :=
  let cs := s.data.dropWhile (fun c => c = ' ')
  let signAndRest : ℚ × List Char :=
    match cs with
    | '-' :: rest => (-1, rest)
    | '+' :: rest => (1, rest)
    | _ => (1, cs)
  let sgn := signAndRest.1
  let afterInt := parseNatAux signAndRest.2 0 0
  let intVal := afterInt.1
  let intDigits := afterInt.2.1
  match afterInt.2.2 with
  | '.' :: rest2 =>
    let afterFrac := parseNatAux rest2 0 0
    let fracVal := afterFrac.1
    let fracDigits := afterFrac.2.1
    if intDigits + fracDigits = 0 then JsVal.nan
    else JsVal.num (sgn * ((intVal : ℚ) + (fracVal : ℚ) / (10 : ℚ) ^ fracDigits))
  | _ =>
    if intDigits = 0 then JsVal.nan else JsVal.num (sgn * (intVal : ℚ))

/-- A request field that arrived either as a JSON/JS number or a string
(the `number | string` union of the handlers). -/
inductive NumOrStr where
  | num (v : JsVal) : NumOrStr
  | str (s : String) : NumOrStr
deriving DecidableEq, Repr

/-- `typeof x === "number" ? x : parseFloat(String(x) || dflt)` —
the permissive coercion used by both handlers. -/
def toNumber (x : NumOrStr) (dflt : String) : JsVal :=
  match x with
  | .num v => v
  | .str s => parseFloatJs (if s = "" then dflt else s)

/-- The durable object's private `data` record. -/
structure BotData where
  date : Option String
  startEquity : Option JsVal
  hitDailyMaxLoss : Bool
  consecutiveLosses : ℕ
  dailyMaxLossPct : Option JsVal
deriving DecidableEq, Repr

/-- The fresh-construction state of `TradingBotState`. -/
def initBotData : BotData :=
  { date := none, startEquity := none, hitDailyMaxLoss := false,
    consecutiveLosses := 0, dailyMaxLossPct := none }

/-- The JSON body returned by `handleGetOrUpdate`. -/
structure GetOrUpdateResult where
  date : Option String
  startEquity : Option JsVal
  currentDayPL : Option JsVal
  hitDailyMaxLoss : Bool
  consecutiveLosses : ℕ
  dailyMaxLossPct : Option JsVal
deriving DecidableEq, Repr

/-- `TradingBotState.handleGetOrUpdate` (src/index.ts lines 133–186):
reset on a new day or missing baseline, otherwise refresh the loss
percentage; then compute the day P/L and trip the sticky max-loss flag. -/
def handleGetOrUpdate (d : BotData) (date : String)
    (equityRaw dailyMaxLossPctRaw : NumOrStr) : BotData × GetOrUpdateResult :=
  let eq := toNumber equityRaw "0"
  let maxLossPct := toNumber dailyMaxLossPctRaw "0.03"
  let d1 : BotData :=
    if d.date ≠ some date ∨ d.startEquity = none then
      { date := some date, startEquity := some eq, hitDailyMaxLoss := false,
        consecutiveLosses := 0, dailyMaxLossPct := some maxLossPct }
    else
      { d with dailyMaxLossPct := some maxLossPct }
  let step : Option JsVal × BotData :=
    match d1.startEquity with
    | some s0 =>
      let pl := eq.sub s0
      let maxLoss := ((s0.mul (d1.dailyMaxLossPct.getD maxLossPct)).abs).neg
      (some pl, if pl.jsLe maxLoss then { d1 with hitDailyMaxLoss := true } else d1)
    | none => (none, d1)
  let d2 := step.2
  (d2,
    { date := d2.date, startEquity := d2.startEquity, currentDayPL := step.1,
      hitDailyMaxLoss := d2.hitDailyMaxLoss,
      consecutiveLosses := d2.consecutiveLosses,
      dailyMaxLossPct := d2.dailyMaxLossPct })

/-- The JSON body returned by `handleRegisterTradeResult`. -/
structure RegisterResult where
  date : Option String
  consecutiveLosses : ℕ
deriving DecidableEq, Repr

/-- `TradingBotState.handleRegisterTradeResult` (src/index.ts lines
188–217): on a date change reset only the loss streak, then apply the
pnl sign rule. -/
def handleRegisterTradeResult (d : BotData) (date : String)
    (pnlRaw : NumOrStr) : BotData × RegisterResult :=
  let d1 : BotData :=
    if d.date ≠ some date then
      { d with date := some date, consecutiveLosses := 0 }
    else d
  let pnl := toNumber pnlRaw "0"
  let d2 : BotData :=
    if pnl.jsLt (JsVal.num 0) then
      { d1 with consecutiveLosses := d1.consecutiveLosses + 1 }
    else if (JsVal.num 0).jsLt pnl then
      { d1 with consecutiveLosses := 0 }
    else d1
  (d2, { date := d2.date, consecutiveLosses := d2.consecutiveLosses })

/-! ## H2 watchlist builder -/

/-- One ticker of the Massive snapshot; `none` fields model
missing or non-numeric JSON values (`typeof x === "number"` fails). -/
structure Ticker where
  ticker : String
  dayC : Option ℚ
  dayV : Option ℚ
  todaysChangePerc : Option ℚ
  minAv : Option ℚ
deriving DecidableEq, Repr

/-- The numeric screen thresholds read from the environment
(PRICE_MIN, PRICE_MAX, PCT_CHANGE_MIN, REL_VOL_MIN, VOL_MIN, MAX_SCREEN). -/
structure FilterCfg where
  priceMin : ℚ
  priceMax : ℚ
  pctChangeMin : ℚ
  relVolMin : ℚ
  volMin : ℚ
  maxScreen : ℕ
deriving DecidableEq, Repr

/-- The H2 pass predicate for one ticker (src/index.ts lines 384–423):
price in range, absolute percent change, relative volume and day volume
all above their thresholds; a missing field fails its sub-check. -/
def tickerPasses (cfg : FilterCfg) (t : Ticker) : Bool :=
  let priceOk :=
    match t.dayC with
    | some p => cfg.priceMin ≤ p ∧ p ≤ cfg.priceMax
    | none => false
  let pctOk :=
    match t.todaysChangePerc with
    | some x => cfg.pctChangeMin ≤ |x|
    | none => false
  let relVol : Option ℚ :=
    match t.minAv, t.dayV with
    | some av, some v => if 0 < av then some (v / av) else none
    | _, _ => none
  let relVolOk :=
    match relVol with
    | some r => cfg.relVolMin ≤ r
    | none => false
  let volOk :=
    match t.dayV with
    | some v => cfg.volMin ≤ v
    | none => false
  priceOk && pctOk && relVolOk && volOk

/-- The screening loop (src/index.ts lines 384–430): collect passing
symbols in order, breaking once the accumulated list reaches MAX_SCREEN. -/
def screenAux (cfg : FilterCfg) : List Ticker → List String → List String
  | [], acc => acc
  | t :: rest, acc =>
    if tickerPasses cfg t then
      let acc2 := acc ++ [t.ticker]
      if cfg.maxScreen ≤ acc2.length then acc2 else screenAux cfg rest acc2
    else screenAux cfg rest acc

/-- The process-wide globals `MASTER_WATCHLIST` / `MASTER_WATCHLIST_DAY`. -/
structure WatchlistState where
  day : Option String
  list : List String
deriving DecidableEq, Repr

/-- `getOrBuildMasterWatchlist` (src/index.ts lines 313–445), with the
snapshot fetch outcome passed in: `none` models an HTTP error, a thrown
fetch, or a JSON parse failure.  Returns (new globals, returned list,
whether a snapshot fetch was performed). -/
def getOrBuildMasterWatchlist (s : WatchlistState) (nyDayKey : String)
    (apiKeyPresent : Bool) (snapshot : Option (List Ticker)) (cfg : FilterCfg) :
    WatchlistState × List String × Bool :=
  if s.day = some nyDayKey ∧ s.list ≠ [] then
    (s, s.list, false)
  else if ¬apiKeyPresent then
    (⟨some nyDayKey, []⟩, [], false)
  else
    match snapshot with
    | none => (⟨some nyDayKey, []⟩, [], true)
    | some tickers =>
      let passed := screenAux cfg tickers []
      (⟨some nyDayKey, passed⟩, passed, true)

/-! ## H3 scan: MACD gate, pattern detection, sizing -/

/-- A one-minute bar (open, high, low, close, volume). -/
structure Bar where
  o : ℚ
  h : ℚ
  l : ℚ
  c : ℚ
  v : ℚ
deriving DecidableEq, Repr

/-- Out-of-range bar accesses never happen on the guarded paths; this is
the placeholder for `List.getD`. -/
def defaultBar : Bar := ⟨0, 0, 0, 0, 0⟩

/-- `bars[bars.length - 1]` — the newest, still-forming bar. -/
def currentBar (bars : List Bar) : Bar := bars.getD (bars.length - 1) defaultBar

/-- `bars[bars.length - 2]` — the last completed bar. -/
def lastBar (bars : List Bar) : Bar := bars.getD (bars.length - 2) defaultBar

/-- `bars[bars.length - 3]` — the candle before the last completed one. -/
def prevBar (bars : List Bar) : Bar := bars.getD (bars.length - 3) defaultBar

/-- Modelled from the spec: `isGreen` is not in the provided source
(truncated file); §4.4 defines a green bar by `close > open`. -/
def isGreen (b : Bar) : Bool := b.o < b.c

/-- Modelled from the spec: `isRed` is not in the provided source
(truncated file); §4.4 defines a red bar by `close < open`. -/
def isRed (b : Bar) : Bool := b.c < b.o

/-- Modelled from the spec: `getSessionOpenPrice` is not in the provided
source (truncated file); §4.4/§9 define the session open as the open of
the first bar of the 30-bar lookback window. -/
def getSessionOpenPrice (bars : List Bar) : ℚ :=
  (bars.getD (bars.length - 30) defaultBar).o

/-- MACD output: last value of the line and of its signal EMA. -/
structure MacdResult where
  line : ℚ
  signal : ℚ
  histogram : ℚ
deriving DecidableEq, Repr

/-- EMA recursion `ema' = c*k + ema*(1-k)`, emitting the seed and every
subsequent value. -/
def emaFrom (k seed : ℚ) : List ℚ → List ℚ
  | [] => [seed]
  | c :: rest => seed :: emaFrom k (c * k + seed * (1 - k)) rest

/-- Modelled from the spec (§4.3): exponential moving average with
smoothing `2/(period+1)`, seeded by the simple average of the first
`period` values; empty when there are fewer than `period` observations. -/
def emaSeries (p : ℕ) (xs : List ℚ) : List ℚ :=
  if p = 0 ∨ xs.length < p then []
  else emaFrom (2 / ((p : ℚ) + 1)) ((xs.take p).sum / (p : ℚ)) (xs.drop p)

/-- Modelled from the spec: `calculateMACD` is not in the provided source
(truncated file); §4.3 defines it as fast EMA minus slow EMA over the
overlapping range, a signal EMA of that line, and requires at least
`S + G` observations. -/
def calculateMACD (closes : List ℚ) (F S G : ℕ) : Option MacdResult :=
  if closes.length < S + G then none
  else
    let fast := emaSeries F closes
    let slow := emaSeries S closes
    let line := List.zipWith (fun a b => a - b) (fast.drop (S - F)) slow
    let sig := emaSeries G line
    some { line := line.getLastD 0, signal := sig.getLastD 0,
           histogram := line.getLastD 0 - sig.getLastD 0 }

/-- The two `continue`s at src/index.ts lines 494–508 merged into one
gate: MACD computable and `macd.line > macd.signal`. -/
def macdGatePassed (bars : List Bar) : Bool :=
  match calculateMACD (bars.map (fun b => b.c)) 12 26 9 with
  | none => false
  | some m => m.signal < m.line

/-- The B-point search loop (src/index.ts lines 527–532): first index of
the strictly-maximal high, scanning left to right. -/
def scanMaxHigh : List Bar → ℕ → ℕ → ℚ → ℕ × ℚ
  | [], _, bIdx, bHigh => (bIdx, bHigh)
  | b :: rest, i, bIdx, bHigh =>
    if bHigh < b.h then scanMaxHigh rest (i + 1) i b.h
    else scanMaxHigh rest (i + 1) bIdx bHigh

/-- The C-point search loop (src/index.ts lines 537–540): minimum low. -/
def minLowAux : List Bar → ℚ → ℚ
  | [], m => m
  | b :: rest, m => minLowAux rest (if b.l < m then b.l else m)

/-- The ABCD block (src/index.ts lines 516–568): returns
`(isABCDSetup, entryTriggerABCD, pointCPrice)`. -/
def abcdInfo (bars : List Bar) : Bool × Option ℚ × Option ℚ :=
  if bars.length < 30 then (false, none, none)
  else
    let startIdx := bars.length - 30
    let bScan := scanMaxHigh (bars.drop (startIdx + 1)) (startIdx + 1)
      startIdx (bars.getD startIdx defaultBar).h
    let bIdx := bScan.1
    let pointB := bScan.2
    if bIdx < bars.length - 1 then
      let pointC := minLowAux (bars.drop (bIdx + 2)) (bars.getD (bIdx + 1) defaultBar).l
      let sessionOpen := getSessionOpenPrice bars
      let higherLow : Bool := sessionOpen < pointC
      let cur := currentBar bars
      let curlingUp : Bool := pointC < cur.c ∧ cur.c < pointB
      (higherLow && curlingUp, some pointB, some pointC)
    else (false, none, none)

/-- The entry patterns of the H3 scan. -/
inductive Pattern where
  | pullback : Pattern
  | abcd : Pattern
deriving DecidableEq, Repr

/-- Pattern selection (src/index.ts lines 570–580): Pullback first, ABCD
only otherwise; returns the pattern and its trigger price. -/
def selectedSetup (bars : List Bar) : Option (Pattern × ℚ) :=
  if isGreen (prevBar bars) && isRed (lastBar bars) then
    some (.pullback, (lastBar bars).h)
  else
    let a := abcdInfo bars
    match a.2.1 with
    | some trigger => if a.1 then some (.abcd, trigger) else none
    | none => none

/-- Breakout confirmation (src/index.ts lines 589–592):
`current.close ≥ trigger` and `current.volume > last.volume`. -/
def breakoutConfirmed (bars : List Bar) (triggerPrice : ℚ) : Bool :=
  triggerPrice ≤ (currentBar bars).c ∧ (lastBar bars).v < (currentBar bars).v

/-- First assignment of `riskPerShare` (src/index.ts lines 610–617). -/
def riskPerShare0 (pat : Pattern) (triggerPrice priceNow lastLow : ℚ)
    (pointC : Option ℚ) : ℚ :=
  match pat with
  | .pullback => triggerPrice - lastLow
  | .abcd =>
    match pointC with
    | some c => triggerPrice - c
    | none => priceNow * (1 / 100)

/-- `riskPerShare` after the non-positive fallback (src/index.ts lines
619–621); over ℚ the `!isFinite` disjunct cannot fire. -/
def riskPerShare (pat : Pattern) (triggerPrice priceNow lastLow : ℚ)
    (pointC : Option ℚ) : ℚ :=
  let rps0 := riskPerShare0 pat triggerPrice priceNow lastLow pointC
  if rps0 ≤ 0 then priceNow * (1 / 100) else rps0

/-- JS division; division by zero and NaN operands yield a non-finite
result, collapsed to `nan` (its only observable use is the
`!isFinite(shares)` skip). -/
def jsDiv : JsVal → JsVal → JsVal
  | .num a, .num b => if b = 0 then .nan else .num (a / b)
  | _, _ => .nan

/-- JS `Math.floor`; NaN propagates. -/
def jsFloor : JsVal → JsVal
  | .num a => .num ⌊a⌋
  | .nan => .nan

/-- `Math.floor(riskDollars / riskPerShare)` (src/index.ts line 623). -/
def sizedShares (equity : JsVal) (riskPct rps : ℚ) : JsVal :=
  jsFloor (jsDiv (equity.mul (.num riskPct)) (.num rps))

/-- One emitted entry signal (src/index.ts lines 633–641). -/
structure SignalAction where
  symbol : String
  pattern : Pattern
  priceNow : ℚ
  triggerPrice : ℚ
  shares : ℚ
  riskDollars : JsVal
  riskPerShare : ℚ
deriving DecidableEq, Repr

/-- The per-symbol body of the H3 scan loop (src/index.ts lines
469–641), after the position/bars gates: returns whether the entry
signal fired (`signals++`) and the pushed action, if any. -/
def scanSymbolStep (riskPct : ℚ) (equity : JsVal) (symbol : String)
    (positionOpen : Bool) (barsFetched : Option (List Bar)) :
    Bool × Option SignalAction :=
  if positionOpen then (false, none)
  else
    match barsFetched with
    | none => (false, none)
    | some bars =>
      if bars.length < 30 then (false, none)
      else if ¬macdGatePassed bars then (false, none)
      else
        match selectedSetup bars with
        | none => (false, none)
        | some (pat, triggerPrice) =>
          if ¬(0 < triggerPrice) then (false, none)
          else if ¬breakoutConfirmed bars triggerPrice then (false, none)
          else
            let priceNow := (currentBar bars).c
            let rps := riskPerShare pat triggerPrice priceNow (lastBar bars).l
              (abcdInfo bars).2.2
            match sizedShares equity riskPct rps with
            | .nan => (true, none)
            | .num z =>
              if z ≤ 0 then (true, none)
              else (true, some
                { symbol := symbol, pattern := pat, priceNow := priceNow,
                  triggerPrice := triggerPrice, shares := z,
                  riskDollars := equity.mul (.num riskPct),
                  riskPerShare := rps })

/-! ## Orchestration: `runBotOnce` -/

/-- Counters of the scan loop of `scanAndTrade_H3`, plus the external
effects it performs (bar fetches, order submissions). -/
structure ScanOut where
  scanned : ℕ
  signals : ℕ
  actions : List SignalAction
  barsFetchCount : ℕ
  ordersPlaced : ℕ
deriving DecidableEq, Repr

/-- The symbol loop of `scanAndTrade_H3` (src/index.ts lines 469–641):
a held position skips before the bar fetch; otherwise the bars are
fetched (`barsFor` gives the fetch outcome per symbol, `none` standing
for a failed/null fetch) and the per-symbol step runs.  An action places
an order exactly when dry-run mode is off. -/
def scanLoop (riskPct : ℚ) (dryRun : Bool) (equity : JsVal)
    (positions : List String) (barsFor : List (String × List Bar)) :
    List String → ScanOut → ScanOut
  | [], acc => acc
  | symbol :: rest, acc =>
    let acc1 := { acc with scanned := acc.scanned + 1 }
    if positions.contains symbol then
      scanLoop riskPct dryRun equity positions barsFor rest acc1
    else
      let barsFetched := (barsFor.lookup symbol)
      let acc2 := { acc1 with barsFetchCount := acc1.barsFetchCount + 1 }
      let step := scanSymbolStep riskPct equity symbol false barsFetched
      let acc3 := { acc2 with signals := acc2.signals + (if step.1 then 1 else 0) }
      let acc4 :=
        match step.2 with
        | none => acc3
        | some a =>
          { acc3 with
              ordersPlaced := acc3.ordersPlaced + (if dryRun then 0 else 1)
              actions := acc3.actions ++ [a] }
      scanLoop riskPct dryRun equity positions barsFor rest acc4

/-- `scanAndTrade_H3` over a whole watchlist. -/
def scanAndTrade (riskPct : ℚ) (dryRun : Bool) (equity : JsVal)
    (positions : List String) (barsFor : List (String × List Bar))
    (watchlist : List String) : ScanOut :=
  scanLoop riskPct dryRun equity positions barsFor watchlist
    { scanned := 0, signals := 0, actions := [], barsFetchCount := 0,
      ordersPlaced := 0 }

/-- The Alpaca account snapshot; only the equity string matters to the
core (`parseFloat(String(account.equity ?? "0"))`). -/
structure Account where
  equity : String
deriving DecidableEq, Repr

/-- The structured run result of `runBotOnce` (spec §6): optional fields
are absent on the paths that do not produce them. -/
structure RunResult where
  ok : Bool
  reason : Option String
  riskState : Option GetOrUpdateResult
  scanned : Option ℕ
  signals : Option ℕ
  actions : Option (List SignalAction)
deriving DecidableEq, Repr

/-- External effects a run performs, for the no-retry / no-scan claims. -/
structure Effects where
  snapshotFetched : Bool
  barsFetchCount : ℕ
  ordersPlaced : ℕ
deriving DecidableEq, Repr

/-- The external world and configuration one run observes. -/
structure RunInputs where
  nyDayKey : String
  wlState : WatchlistState
  apiKeyPresent : Bool
  snapshot : Option (List Ticker)
  cfg : FilterCfg
  account : Option Account
  doState : BotData
  dailyMaxLossPct : ℚ
  riskPct : ℚ
  dryRun : Bool
  positions : List String
  barsFor : List (String × List Bar)
deriving Repr

/-- A run result with every optional field absent. -/
def bareResult (ok : Bool) (reason : String) : RunResult :=
  { ok := ok, reason := some reason, riskState := none, scanned := none,
    signals := none, actions := none }

/-- The stages of `runBotOnce` after the time gates (src/index.ts lines
251–307): watchlist build, account fetch, risk state, daily-loss gate,
scan.  `getRiskState` is not in the provided source (truncated file); it
is modelled from the spec (§6) as the durable-object `getOrUpdate` RPC
with the day key, the parsed equity and the configured loss percent. -/
def runGatedStages (force : Bool) (I : RunInputs) : RunResult × Effects :=
  let wb := getOrBuildMasterWatchlist I.wlState I.nyDayKey I.apiKeyPresent
    I.snapshot I.cfg
  let watchlist := wb.2.1
  let eff0 : Effects :=
    { snapshotFetched := wb.2.2, barsFetchCount := 0, ordersPlaced := 0 }
  if watchlist = [] then (bareResult false "empty-watchlist", eff0)
  else
    match I.account with
    | none => (bareResult false "account-fetch-failed", eff0)
    | some account =>
      let equity := parseFloatJs account.equity
      let rk := handleGetOrUpdate I.doState I.nyDayKey (.num equity)
        (.num (.num I.dailyMaxLossPct))
      let riskState := rk.2
      if riskState.hitDailyMaxLoss ∧ ¬force then
        ({ ok := true, reason := some "daily-max-loss-hit",
           riskState := some riskState, scanned := none, signals := none,
           actions := none }, eff0)
      else
        let sc := scanAndTrade I.riskPct I.dryRun equity I.positions
          I.barsFor watchlist
        ({ ok := true, reason := none, riskState := some riskState,
           scanned := some sc.scanned, signals := some sc.signals,
           actions := some sc.actions },
         { snapshotFetched := eff0.snapshotFetched,
           barsFetchCount := sc.barsFetchCount,
           ordersPlaced := sc.ordersPlaced })

/-- `runBotOnce` (src/index.ts lines 224–307): the 09:24–11:00
exchange-local entry window guards every non-forced run, then the gated
stages run.  `nyMinutes` is the minutes-past-midnight value supplied by
the (truncated) `getNewYorkTimeInfo`. -/
def runBotOnce (force : Bool) (nyMinutes : ℤ) (I : RunInputs) :
    RunResult × Effects :=
  if ¬force ∧ nyMinutes < 9 * 60 + 24 then
    (bareResult true "too-early", ⟨false, 0, 0⟩)
  else if ¬force ∧ 11 * 60 < nyMinutes then
    (bareResult true "too-late", ⟨false, 0, 0⟩)
  else runGatedStages force I

/-! ## Operation sequences and concrete instances -/

/-- One request to the `TradingBotState` durable object. -/
inductive BotOp where
  | update (date : String) (equityRaw pctRaw : NumOrStr) : BotOp
  | trade (date : String) (pnlRaw : NumOrStr) : BotOp
deriving DecidableEq, Repr

/-- The day key an operation carries. -/
def opDate : BotOp → String
  | .update d _ _ => d
  | .trade d _ => d

/-- The state transition of one durable-object request. -/
def stepOp (s : BotData) (op : BotOp) : BotData :=
  match op with
  | .update d e p => (handleGetOrUpdate s d e p).1
  | .trade d pnl => (handleRegisterTradeResult s d pnl).1

/-- The `consecutiveLosses` values returned by a same-date sequence of
`registerTradeResult` calls with the given pnls. -/
def registerSeq (s : BotData) (date : String) : List ℚ → List ℕ
  | [] => []
  | q :: rest =>
    let out := handleRegisterTradeResult s date (.num (.num q))
    out.2.consecutiveLosses :: registerSeq out.1 date rest

/-- The default H2 screen thresholds. -/
def demoCfg : FilterCfg := ⟨5, 200, 2, 3/2, 500000, 100⟩

/-- Sixty one-minute bars: a steady up-ramp of closes, a green candle,
then a red candle with high 20 and low 19.5, then a forming bar closing
at 100 on doubled volume.  The MACD gate passes, the Pullback setup
fires with trigger 20, and the breakout is confirmed. -/
def demoBars : List Bar :=
  ((List.range 57).map (fun i => ⟨i, i + 2, i, i + 1, 1⟩)) ++
    [⟨57, 59, 57, 58, 1⟩, ⟨100, 20, 39/2, 59, 1⟩, ⟨59, 101, 59, 100, 2⟩]

/-- A durable-object state that has already tripped the daily max loss. -/
def demoDoState : BotData :=
  ⟨some "2026-01-02", some (.num 10000), true, 0, some (.num (3/100))⟩

/-- Run inputs with a cached non-empty watchlist for the run's day, an
account of equity 9600, and the tripped risk state above. -/
def demoRunInputs : RunInputs where
  nyDayKey := "2026-01-02"
  wlState := ⟨some "2026-01-02", ["AAA"]⟩
  apiKeyPresent := true
  snapshot := none
  cfg := demoCfg
  account := some ⟨"9600"⟩
  doState := demoDoState
  dailyMaxLossPct := 3/100
  riskPct := 1/100
  dryRun := true
  positions := []
  barsFor := []

/-! ## Claims -/

section ClaimProofs

attribute [local semireducible] Rat.mul Rat.add Rat.sub Rat.inv Rat.ofScientific

set_option maxRecDepth 16000

/-- C1, counterexample: the claim says an empty watchlist cached after a
fetch failure is returned unchanged on the next same-day call with no
further snapshot fetch.  In the code the cache hit requires a non-empty
list, so after a failed build (first conjunct: the failure caches an
empty list for the day) a second call on the very same day performs
another snapshot fetch (second conjunct: the fetch flag is true). -/
theorem c1_empty_cache_is_refetched :
    (getOrBuildMasterWatchlist ⟨none, []⟩ "2026-01-02" true none demoCfg).1 =
      ⟨some "2026-01-02", []⟩ ∧
    (getOrBuildMasterWatchlist ⟨some "2026-01-02", []⟩ "2026-01-02" true
      (some []) demoCfg).2.2 = true := by
  exact ⟨rfl, rfl⟩

/-- C1, amended: once a non-empty watchlist is cached for day `d`, every
subsequent call for `d` returns it unchanged and performs no snapshot
fetch; an empty cached watchlist (failure or no passing symbols) is not
a cache hit and is rebuilt on the next call the same day. -/
theorem c1_nonempty_cache_hit (s : WatchlistState) (d : String) (k : Bool)
    (snap : Option (List Ticker)) (cfg : FilterCfg)
    (h1 : s.day = some d) (h2 : s.list ≠ []) :
    getOrBuildMasterWatchlist s d k snap cfg = (s, s.list, false) := by
  unfold getOrBuildMasterWatchlist
  rw [if_pos ⟨h1, h2⟩]

/-- C1, witness: the amended cache-hit theorem at a concrete cached
state. -/
theorem c1_nonempty_cache_hit_witness :
    (⟨some "2026-01-02", ["AAA"]⟩ : WatchlistState).day = some "2026-01-02" ∧
    (⟨some "2026-01-02", ["AAA"]⟩ : WatchlistState).list ≠ [] ∧
    getOrBuildMasterWatchlist ⟨some "2026-01-02", ["AAA"]⟩ "2026-01-02" true
      none demoCfg = (⟨some "2026-01-02", ["AAA"]⟩, ["AAA"], false) :=
  ⟨rfl, by decide, c1_nonempty_cache_hit _ _ _ _ _ rfl (by decide)⟩

/-- C2, counterexample: the claim says an unparsable equity is treated
as 0, so a fresh-day call would set `startEquity` to 0.  On the string
"abc" the code's `parseFloat` yields NaN, and the fresh-day call stores
NaN — not 0 — as the day's starting equity. -/
theorem c2_unparsable_equity_not_zero :
    (handleGetOrUpdate initBotData "2026-01-02" (.str "abc")
      (.num (.num (3/100)))).2.startEquity = some .nan ∧
    some JsVal.nan ≠ some (JsVal.num 0) := by
  exact ⟨rfl, by decide⟩

/-- C2, amended: a `getOrUpdate` whose equity string cannot be parsed
yields NaN (only the empty string falls back to "0"); the call still
completes, and on a fresh day it sets `startEquity` (and the returned
day P/L) to NaN and leaves the max-loss flag untripped, while an
empty-string equity does set `startEquity` to 0. -/
theorem c2_unparsable_equity_yields_nan (s : BotData) (date es : String)
    (pctRaw : NumOrStr)
    (hfresh : s.date ≠ some date ∨ s.startEquity = none)
    (hne : es ≠ "") (hnan : parseFloatJs es = .nan) :
    ((handleGetOrUpdate s date (.str es) pctRaw).2.startEquity = some .nan ∧
     (handleGetOrUpdate s date (.str es) pctRaw).2.currentDayPL = some .nan ∧
     (handleGetOrUpdate s date (.str es) pctRaw).2.hitDailyMaxLoss = false) ∧
    (handleGetOrUpdate s date (.str "") pctRaw).2.startEquity =
      some (.num 0) := by
  have h0 : parseFloatJs "0" = .num 0 := by decide
  refine ⟨⟨?_, ?_, ?_⟩, ?_⟩
  · simp [handleGetOrUpdate, toNumber, hfresh, hne, hnan, h0,
      JsVal.sub, JsVal.mul, JsVal.abs, JsVal.neg, JsVal.jsLe]
  · simp [handleGetOrUpdate, toNumber, hfresh, hne, hnan, h0,
      JsVal.sub, JsVal.mul, JsVal.abs, JsVal.neg, JsVal.jsLe]
  · simp [handleGetOrUpdate, toNumber, hfresh, hne, hnan, h0,
      JsVal.sub, JsVal.mul, JsVal.abs, JsVal.neg, JsVal.jsLe]
  · simp only [handleGetOrUpdate, toNumber, hfresh, h0, if_true, ite_true,
      if_pos, reduceIte]
    split <;> rfl

/-- C2, witness: the amended theorem at the concrete input "abc". -/
theorem c2_unparsable_equity_yields_nan_witness :
    (initBotData.date ≠ some "2026-01-02" ∨ initBotData.startEquity = none) ∧
    ("abc" ≠ "") ∧ parseFloatJs "abc" = .nan ∧
    (((handleGetOrUpdate initBotData "2026-01-02" (.str "abc")
        (.num (.num (3/100)))).2.startEquity = some .nan ∧
      (handleGetOrUpdate initBotData "2026-01-02" (.str "abc")
        (.num (.num (3/100)))).2.currentDayPL = some .nan ∧
      (handleGetOrUpdate initBotData "2026-01-02" (.str "abc")
        (.num (.num (3/100)))).2.hitDailyMaxLoss = false) ∧
     (handleGetOrUpdate initBotData "2026-01-02" (.str "")
        (.num (.num (3/100)))).2.startEquity = some (.num 0)) :=
  ⟨by decide, by decide, by decide,
   c2_unparsable_equity_yields_nan initBotData "2026-01-02" "abc"
     (.num (.num (3/100))) (by decide) (by decide) (by decide)⟩

/-- C3: on an already-initialized same-day state, `getOrUpdate` returns
`currentDayPL = equity - startEquity` and trips `hitDailyMaxLoss`
whenever that P/L is at most `-|startEquity * dailyMaxLossPct|`;
concretely, `getOrUpdate(D, 10000, 0.03)` then `getOrUpdate(D, 9600,
0.03)` returns P/L −400 with the flag tripped. -/
theorem c3_same_day_pl_and_trip (s : BotData) (date : String) (e e0 p : ℚ)
    (hd : s.date = some date) (hse : s.startEquity = some (.num e0)) :
    ((handleGetOrUpdate s date (.num (.num e)) (.num (.num p))).2.currentDayPL =
       some (.num (e - e0)) ∧
     (e - e0 ≤ -|e0 * p| →
       (handleGetOrUpdate s date (.num (.num e))
         (.num (.num p))).2.hitDailyMaxLoss = true)) ∧
    ((handleGetOrUpdate
        ((handleGetOrUpdate initBotData "2026-02-02" (.num (.num 10000))
          (.num (.num (3/100)))).1)
        "2026-02-02" (.num (.num 9600)) (.num (.num (3/100)))).2.currentDayPL =
       some (.num (-400)) ∧
     (handleGetOrUpdate
        ((handleGetOrUpdate initBotData "2026-02-02" (.num (.num 10000))
          (.num (.num (3/100)))).1)
        "2026-02-02" (.num (.num 9600))
        (.num (.num (3/100)))).2.hitDailyMaxLoss = true) := by
  refine ⟨⟨?_, ?_⟩, by decide, by decide⟩
  · simp [handleGetOrUpdate, toNumber, hd, hse, JsVal.sub, JsVal.mul,
      JsVal.abs, JsVal.neg, JsVal.jsLe]
  · intro hle
    simp [handleGetOrUpdate, toNumber, hd, hse, JsVal.sub, JsVal.mul,
      JsVal.abs, JsVal.neg, JsVal.jsLe, hle]

/-- C3, witness: the same-day P/L theorem at equity 9600 against a
stored start equity of 10000 with a 3% loss limit. -/
theorem c3_same_day_pl_and_trip_witness :
    demoDoState.date = some "2026-01-02" ∧
    demoDoState.startEquity = some (.num 10000) ∧
    ((handleGetOrUpdate demoDoState "2026-01-02" (.num (.num 9600))
       (.num (.num (3/100)))).2.currentDayPL = some (.num (9600 - 10000)) ∧
     (9600 - 10000 ≤ -|(10000 : ℚ) * (3/100)| →
       (handleGetOrUpdate demoDoState "2026-01-02" (.num (.num 9600))
         (.num (.num (3/100)))).2.hitDailyMaxLoss = true)) :=
  ⟨rfl, rfl,
   (c3_same_day_pl_and_trip demoDoState "2026-01-02" 9600 10000 (3/100)
     rfl rfl).1⟩

/-- Any same-day request preserves the stored date, the presence of a
start equity, and a tripped `hitDailyMaxLoss` flag. -/
theorem stepOp_same_day_preserves (s : BotData) (op : BotOp) (D : String)
    (hd : s.date = some D) (hse : s.startEquity ≠ none)
    (hh : s.hitDailyMaxLoss = true) (hop : opDate op = D) :
    (stepOp s op).date = some D ∧ (stepOp s op).startEquity ≠ none ∧
    (stepOp s op).hitDailyMaxLoss = true := by
  obtain ⟨v, hv⟩ := Option.ne_none_iff_exists'.mp hse
  cases op with
  | update d e p =>
    have hdD : d = D := hop
    subst hdD
    have hcond : ¬(s.date ≠ some d ∨ s.startEquity = none) := by
      simp [hd, hv]
    simp only [stepOp, handleGetOrUpdate, if_neg hcond]
    split <;> simp [hd, hv, hh]
  | trade d pnl =>
    have hdD : d = D := hop
    subst hdD
    have hcond : ¬(s.date ≠ some d) := by simp [hd]
    simp only [stepOp, handleRegisterTradeResult, if_neg hcond]
    split <;> (try split) <;> simp [hd, hv, hh]

/-- C4: `hitDailyMaxLoss` is monotonic within a trading day — starting
from any state for day `D` with a start equity recorded and the flag
tripped, any sequence of `getOrUpdate` / `registerTradeResult` requests
that all carry `D` leaves the flag tripped, however equity evolves; and
the flag a `getOrUpdate` response reports is exactly the flag of the
state it persists. -/
theorem c4_hit_monotonic_same_day (ops : List BotOp) (s : BotData) (D : String)
    (hd : s.date = some D) (hse : s.startEquity ≠ none)
    (hh : s.hitDailyMaxLoss = true) (hops : ∀ op ∈ ops, opDate op = D) :
    (ops.foldl stepOp s).hitDailyMaxLoss = true ∧
    (∀ (s2 : BotData) (d : String) (e p : NumOrStr),
      (handleGetOrUpdate s2 d e p).2.hitDailyMaxLoss =
        (handleGetOrUpdate s2 d e p).1.hitDailyMaxLoss) := by
  refine ⟨?_, fun s2 d e p => rfl⟩
  induction ops generalizing s with
  | nil => exact hh
  | cons op rest ih =>
    have hop := hops op (List.mem_cons_self op rest)
    obtain ⟨h1, h2, h3⟩ := stepOp_same_day_preserves s op D hd hse hh hop
    exact ih (stepOp s op) h1 h2 h3 (fun o ho => hops o (List.mem_cons_of_mem op ho))

/-- C4, witness: a tripped state stays tripped across a same-day
equity-recovery update, a winning trade, and another update. -/
theorem c4_hit_monotonic_same_day_witness :
    demoDoState.date = some "2026-01-02" ∧
    demoDoState.startEquity ≠ none ∧
    demoDoState.hitDailyMaxLoss = true ∧
    (∀ op ∈ [BotOp.update "2026-01-02" (.num (.num 10500)) (.num (.num (3/100))),
             BotOp.trade "2026-01-02" (.num (.num 7)),
             BotOp.update "2026-01-02" (.num (.num 11000)) (.num (.num (3/100)))],
      opDate op = "2026-01-02") ∧
    (([BotOp.update "2026-01-02" (.num (.num 10500)) (.num (.num (3/100))),
       BotOp.trade "2026-01-02" (.num (.num 7)),
       BotOp.update "2026-01-02" (.num (.num 11000)) (.num (.num (3/100)))].foldl
        stepOp demoDoState).hitDailyMaxLoss = true) :=
  ⟨rfl, by decide, rfl, by decide,
   (c4_hit_monotonic_same_day _ demoDoState "2026-01-02" rfl (by decide) rfl
     (by decide)).1⟩

/-- C5: a same-date `registerTradeResult` increments the loss streak on
a negative pnl, clears it on a positive pnl, and leaves it unchanged on
zero; the pnl sequence [−5, −3, +2, −1] on one date returns the streaks
[1, 2, 0, 1]. -/
theorem c5_consecutive_losses_rule (s : BotData) (date : String) (q : ℚ)
    (hd : s.date = some date) :
    ((handleRegisterTradeResult s date (.num (.num q))).2.consecutiveLosses =
      if q < 0 then s.consecutiveLosses + 1
      else if 0 < q then 0 else s.consecutiveLosses) ∧
    registerSeq ⟨some "2026-02-03", none, false, 0, none⟩ "2026-02-03"
      [-5, -3, 2, -1] = [1, 2, 0, 1] := by
  refine ⟨?_, by decide⟩
  have hcond : ¬(s.date ≠ some date) := by simp [hd]
  simp only [handleRegisterTradeResult, toNumber, JsVal.jsLt, if_neg hcond]
  by_cases h1 : q < 0
  · simp [h1]
  · by_cases h2 : 0 < q
    · simp [h1, h2]
    · simp [h1, h2]

/-- C5, witness: the streak rule applied to a losing trade on the stored
date of a state with a streak of 0. -/
theorem c5_consecutive_losses_rule_witness :
    demoDoState.date = some "2026-01-02" ∧
    ((handleRegisterTradeResult demoDoState "2026-01-02"
        (.num (.num (-5)))).2.consecutiveLosses =
      if (-5 : ℚ) < 0 then demoDoState.consecutiveLosses + 1
      else if (0 : ℚ) < -5 then 0 else demoDoState.consecutiveLosses) :=
  ⟨rfl, (c5_consecutive_losses_rule demoDoState "2026-01-02" (-5) rfl).1⟩

/-- C6: a `registerTradeResult` whose date differs from the stored date
sets the new date and restarts the loss streak from 0 before applying
the pnl rule, while `startEquity`, `hitDailyMaxLoss` and
`dailyMaxLossPct` keep their previous values. -/
theorem c6_new_date_resets_only_streak (s : BotData) (date : String)
    (pnlRaw : NumOrStr) (hdiff : s.date ≠ some date) :
    (handleRegisterTradeResult s date pnlRaw).1.date = some date ∧
    (handleRegisterTradeResult s date pnlRaw).1.startEquity = s.startEquity ∧
    (handleRegisterTradeResult s date pnlRaw).1.hitDailyMaxLoss =
      s.hitDailyMaxLoss ∧
    (handleRegisterTradeResult s date pnlRaw).1.dailyMaxLossPct =
      s.dailyMaxLossPct ∧
    (handleRegisterTradeResult s date pnlRaw).1.consecutiveLosses =
      (if (toNumber pnlRaw "0").jsLt (.num 0) then 1 else 0) := by
  simp only [handleRegisterTradeResult, hdiff]
  split <;> (try split) <;> simp_all

/-- C6, witness: a losing trade arriving with a new date keeps the
tripped flag and the old start equity, and restarts the streak at 1. -/
theorem c6_new_date_resets_only_streak_witness :
    demoDoState.date ≠ some "2026-01-03" ∧
    ((handleRegisterTradeResult demoDoState "2026-01-03"
        (.num (.num (-5)))).1.date = some "2026-01-03" ∧
     (handleRegisterTradeResult demoDoState "2026-01-03"
        (.num (.num (-5)))).1.startEquity = demoDoState.startEquity ∧
     (handleRegisterTradeResult demoDoState "2026-01-03"
        (.num (.num (-5)))).1.hitDailyMaxLoss = demoDoState.hitDailyMaxLoss ∧
     (handleRegisterTradeResult demoDoState "2026-01-03"
        (.num (.num (-5)))).1.dailyMaxLossPct = demoDoState.dailyMaxLossPct ∧
     (handleRegisterTradeResult demoDoState "2026-01-03"
        (.num (.num (-5)))).1.consecutiveLosses =
       (if (toNumber (.num (.num (-5))) "0").jsLt (.num 0) then 1 else 0)) :=
  ⟨by decide,
   c6_new_date_resets_only_streak demoDoState "2026-01-03"
     (.num (.num (-5))) (by decide)⟩

/-- After the position, bar-count, MACD and setup gates, the per-symbol
step is exactly: breakout confirmation, then sizing, then emission. -/
theorem scanStep_after_gates (riskPct : ℚ) (equity : JsVal) (sym : String)
    (bars : List Bar) (pat : Pattern) (trig : ℚ)
    (h30 : ¬bars.length < 30) (hm : macdGatePassed bars = true)
    (hsel : selectedSetup bars = some (pat, trig)) (htrig : 0 < trig) :
    scanSymbolStep riskPct equity sym false (some bars) =
      if breakoutConfirmed bars trig then
        (true,
          match sizedShares equity riskPct (riskPerShare pat trig
              (currentBar bars).c (lastBar bars).l (abcdInfo bars).2.2) with
          | .nan => none
          | .num z =>
            if z ≤ 0 then none
            else some ⟨sym, pat, (currentBar bars).c, trig, z,
              equity.mul (.num riskPct),
              riskPerShare pat trig (currentBar bars).c (lastBar bars).l
                (abcdInfo bars).2.2⟩)
      else (false, none) := by
  by_cases hb : breakoutConfirmed bars trig = true
  · simp only [scanSymbolStep, if_neg h30, hm, hsel, htrig, hb]
    simp only [if_pos hb, Bool.not_true, not_true_eq_false, if_false,
      ite_false, ite_true, not_lt, reduceIte]
    cases hx : sizedShares equity riskPct (riskPerShare pat trig
        (currentBar bars).c (lastBar bars).l (abcdInfo bars).2.2) with
    | nan => simp
    | num z => by_cases hz : z ≤ 0 <;> simp [hz]
  · simp only [scanSymbolStep, if_neg h30, hm, hsel, htrig]
    simp only [Bool.not_eq_true] at hb
    simp [hb]

/-- C7, counterexample: the claim says a signal action is produced iff
the current bar closes at or above the trigger on rising volume.  With
account equity 0 the breakout below is selected and confirmed (first two
conjuncts) and the signal fires, yet no action is produced because the
sized share count is 0 — so confirmation alone does not produce an
action. -/
theorem c7_confirmed_breakout_without_action :
    selectedSetup demoBars = some (.pullback, 20) ∧
    breakoutConfirmed demoBars 20 = true ∧
    (scanSymbolStep (1/100) (.num 0) "SYM" false (some demoBars)).1 = true ∧
    (scanSymbolStep (1/100) (.num 0) "SYM" false (some demoBars)).2 = none :=
  ⟨by decide, by decide, by decide, by decide⟩

/-- C7, amended: for a symbol with a selected pattern and positive
trigger price (past the MACD and bar-count gates), the entry signal
fires iff the current bar closes at or above the trigger with volume
above the last completed bar's; an action is emitted iff additionally
the sized share count is a positive number.  Nothing is carried across
runs: the scan step is a pure function of the run's own inputs. -/
theorem c7_signal_iff_confirmed (riskPct : ℚ) (equity : JsVal) (sym : String)
    (bars : List Bar) (pat : Pattern) (trig : ℚ)
    (h30 : ¬bars.length < 30) (hm : macdGatePassed bars = true)
    (hsel : selectedSetup bars = some (pat, trig)) (htrig : 0 < trig) :
    ((scanSymbolStep riskPct equity sym false (some bars)).1 = true ↔
      breakoutConfirmed bars trig = true) ∧
    ((scanSymbolStep riskPct equity sym false (some bars)).2 ≠ none ↔
      (breakoutConfirmed bars trig = true ∧
       ∃ z : ℚ, sizedShares equity riskPct (riskPerShare pat trig
         (currentBar bars).c (lastBar bars).l (abcdInfo bars).2.2) = .num z ∧
         0 < z)) := by
  rw [scanStep_after_gates riskPct equity sym bars pat trig h30 hm hsel htrig]
  by_cases hb : breakoutConfirmed bars trig = true
  · rw [if_pos hb]
    refine ⟨by simp [hb], ?_⟩
    cases hs : sizedShares equity riskPct (riskPerShare pat trig
        (currentBar bars).c (lastBar bars).l (abcdInfo bars).2.2) with
    | nan => simp [hb, hs]
    | num z =>
      by_cases hz : z ≤ 0
      · simp only [if_pos hz]
        simp only [ne_eq, not_true_eq_false, false_iff, not_and]
        intro _
        rintro ⟨z2, hz2, hpos⟩
        cases hz2
        exact absurd hpos (not_lt.mpr hz)
      · simp only [if_neg hz]
        simp only [ne_eq, reduceCtorEq, not_false_eq_true, true_iff]
        exact ⟨hb, z, rfl, lt_of_not_le hz⟩
  · simp only [Bool.not_eq_true] at hb
    simp [hb]

/-- C7, witness: the amended theorem at the demo bars with equity 10000:
the confirmed Pullback breakout at trigger 20 fires and emits. -/
theorem c7_signal_iff_confirmed_witness :
    (¬demoBars.length < 30) ∧ macdGatePassed demoBars = true ∧
    selectedSetup demoBars = some (.pullback, 20) ∧ (0 : ℚ) < 20 ∧
    (((scanSymbolStep (1/100) (.num 10000) "SYM" false (some demoBars)).1 = true ↔
       breakoutConfirmed demoBars 20 = true) ∧
     ((scanSymbolStep (1/100) (.num 10000) "SYM" false (some demoBars)).2 ≠ none ↔
       (breakoutConfirmed demoBars 20 = true ∧
        ∃ z : ℚ, sizedShares (.num 10000) (1/100) (riskPerShare .pullback 20
          (currentBar demoBars).c (lastBar demoBars).l (abcdInfo demoBars).2.2) =
            .num z ∧ 0 < z))) :=
  ⟨by decide, by decide, by decide, by decide,
   c7_signal_iff_confirmed (1/100) (.num 10000) "SYM" demoBars .pullback 20
     (by decide) (by decide) (by decide) (by decide)⟩

/-- C8: for a confirmed signal the risk per share is the trigger minus
the stop reference (the last completed bar's low for Pullback, point C
for ABCD), replaced by 1% of the current price when that difference is
not positive; every emitted action carries a numeric equity `q`, shares
`⌊q·riskPct / riskPerShare⌋`, and `riskDollars = q·riskPct`; and the
action is discarded whenever the sized share count is not a positive
number. -/
theorem c8_sizing_formula (riskPct : ℚ) (equity : JsVal) (sym : String)
    (bars : List Bar) (pat : Pattern) (trig : ℚ)
    (h30 : ¬bars.length < 30) (hm : macdGatePassed bars = true)
    (hsel : selectedSetup bars = some (pat, trig)) (htrig : 0 < trig)
    (hconf : breakoutConfirmed bars trig = true) :
    (riskPerShare pat trig (currentBar bars).c (lastBar bars).l
        (abcdInfo bars).2.2 =
      (let diff :=
        match pat with
        | .pullback => trig - (lastBar bars).l
        | .abcd =>
          match (abcdInfo bars).2.2 with
          | some c => trig - c
          | none => (currentBar bars).c * (1 / 100)
       if diff ≤ 0 then (currentBar bars).c * (1 / 100) else diff)) ∧
    (∀ a, (scanSymbolStep riskPct equity sym false (some bars)).2 = some a →
      ∃ q : ℚ, equity = .num q ∧
        a.riskPerShare = riskPerShare pat trig (currentBar bars).c
          (lastBar bars).l (abcdInfo bars).2.2 ∧
        a.riskDollars = .num (q * riskPct) ∧
        a.shares = ⌊q * riskPct / a.riskPerShare⌋ ∧ 0 < a.shares) ∧
    (∀ z : ℚ, sizedShares equity riskPct (riskPerShare pat trig
        (currentBar bars).c (lastBar bars).l (abcdInfo bars).2.2) = .num z →
      z ≤ 0 → (scanSymbolStep riskPct equity sym false (some bars)).2 = none) ∧
    (sizedShares equity riskPct (riskPerShare pat trig (currentBar bars).c
        (lastBar bars).l (abcdInfo bars).2.2) = .nan →
      (scanSymbolStep riskPct equity sym false (some bars)).2 = none) := by
  rw [scanStep_after_gates riskPct equity sym bars pat trig h30 hm hsel htrig,
    if_pos hconf]
  refine ⟨?_, ?_, ?_, ?_⟩
  · cases pat with
    | pullback => rfl
    | abcd => cases (abcdInfo bars).2.2 <;> rfl
  · intro a ha
    cases hx : sizedShares equity riskPct (riskPerShare pat trig
        (currentBar bars).c (lastBar bars).l (abcdInfo bars).2.2) with
    | nan => rw [hx] at ha; exact absurd ha (by simp)
    | num z =>
      rw [hx] at ha
      have ha2 : (if z ≤ 0 then (none : Option SignalAction)
          else some ⟨sym, pat, (currentBar bars).c, trig, z,
            equity.mul (.num riskPct),
            riskPerShare pat trig (currentBar bars).c (lastBar bars).l
              (abcdInfo bars).2.2⟩) = some a := ha
      by_cases hz : z ≤ 0
      · rw [if_pos hz] at ha2; exact absurd ha2 (by simp)
      · rw [if_neg hz] at ha2
        cases equity with
        | nan => exact absurd hx (by simp [sizedShares, JsVal.mul, jsDiv, jsFloor])
        | num q =>
          refine ⟨q, rfl, ?_⟩
          have ha3 := (Option.some_injective _ ha2).symm
          subst ha3
          simp only [sizedShares, JsVal.mul, jsDiv] at hx
          by_cases hr : riskPerShare pat trig (currentBar bars).c
              (lastBar bars).l (abcdInfo bars).2.2 = 0
          · rw [if_pos hr] at hx; exact absurd hx (by simp [jsFloor])
          · rw [if_neg hr] at hx
            simp only [jsFloor, JsVal.num.injEq] at hx
            exact ⟨rfl, rfl, hx.symm, lt_of_not_le hz⟩
  · intro z hz hle
    rw [hz]
    simp [hle]
  · intro hnan
    rw [hnan]

/-- C8, witness: the sizing theorem at the demo bars — equity 10000,
1% risk, trigger 20, stop reference 19.5 — together with the concrete
emitted action: 200 shares from 100 risk dollars at 0.5 risk per
share. -/
theorem c8_sizing_formula_witness :
    (¬demoBars.length < 30) ∧ macdGatePassed demoBars = true ∧
    selectedSetup demoBars = some (.pullback, 20) ∧ (0 : ℚ) < 20 ∧
    breakoutConfirmed demoBars 20 = true ∧
    (lastBar demoBars).l = 39/2 ∧
    scanSymbolStep (1/100) (.num 10000) "SYM" false (some demoBars) =
      (true, some ⟨"SYM", .pullback, 100, 20, 200, .num 100, 1/2⟩) ∧
    (∀ a, (scanSymbolStep (1/100) (.num 10000) "SYM" false
        (some demoBars)).2 = some a →
      ∃ q : ℚ, JsVal.num 10000 = .num q ∧
        a.riskPerShare = riskPerShare .pullback 20 (currentBar demoBars).c
          (lastBar demoBars).l (abcdInfo demoBars).2.2 ∧
        a.riskDollars = .num (q * (1/100)) ∧
        a.shares = ⌊q * (1/100) / a.riskPerShare⌋ ∧ 0 < a.shares) :=
  ⟨by decide, by decide, by decide, by decide, by decide, by decide, by decide,
   (c8_sizing_formula (1/100) (.num 10000) "SYM" demoBars .pullback 20
     (by decide) (by decide) (by decide) (by decide) (by decide)).2.1⟩

/-- Inside the 09:24–11:00 window (inclusive on both ends) a run is not
gated on the time of day. -/
theorem runBotOnce_in_window (m : ℤ) (I : RunInputs)
    (hm1 : ¬m < 9 * 60 + 24) (hm2 : ¬11 * 60 < m) (force : Bool) :
    runBotOnce force m I = runGatedStages force I := by
  simp only [runBotOnce]
  rw [if_neg (fun h => hm1 h.2), if_neg (fun h => hm2 h.2)]

/-- The post-gate stages never report a time-of-day reason. -/
theorem runGatedStages_reason_ne_window (force : Bool) (I : RunInputs) :
    (runGatedStages force I).1.reason ≠ some "too-early" ∧
    (runGatedStages force I).1.reason ≠ some "too-late" := by
  simp only [runGatedStages, bareResult]
  by_cases hw : (getOrBuildMasterWatchlist I.wlState I.nyDayKey
      I.apiKeyPresent I.snapshot I.cfg).2.1 = []
  · simp [hw]
  · cases hacc : I.account with
    | none => simp [hw, hacc]
    | some a =>
      by_cases hrisk : (handleGetOrUpdate I.doState I.nyDayKey
          (.num (parseFloatJs a.equity))
          (.num (.num I.dailyMaxLossPct))).2.hitDailyMaxLoss = true ∧
          force = false
      · simp [hw, hacc, hrisk]
      · simp [hw, hacc, hrisk]

/-- C9: with the daily max-loss flag tripped and `force = false`, a run
inside the entry window whose watchlist is non-empty and whose account
fetch succeeds aborts right after the risk-state call: the result is
`ok = true` with reason "daily-max-loss-hit" carrying the current risk
state, no symbol is scanned (no scan counters), no bars are fetched and
no order is placed. -/
theorem c9_daily_max_loss_gate (m : ℤ) (I : RunInputs) (acct : Account)
    (hm1 : ¬m < 9 * 60 + 24) (hm2 : ¬11 * 60 < m)
    (hacct : I.account = some acct)
    (hwl : (getOrBuildMasterWatchlist I.wlState I.nyDayKey I.apiKeyPresent
      I.snapshot I.cfg).2.1 ≠ [])
    (hhit : (handleGetOrUpdate I.doState I.nyDayKey
        (.num (parseFloatJs acct.equity))
        (.num (.num I.dailyMaxLossPct))).2.hitDailyMaxLoss = true) :
    runBotOnce false m I =
      (⟨true, some "daily-max-loss-hit",
        some (handleGetOrUpdate I.doState I.nyDayKey
          (.num (parseFloatJs acct.equity))
          (.num (.num I.dailyMaxLossPct))).2, none, none, none⟩,
       ⟨(getOrBuildMasterWatchlist I.wlState I.nyDayKey I.apiKeyPresent
          I.snapshot I.cfg).2.2, 0, 0⟩) := by
  rw [runBotOnce_in_window m I hm1 hm2 false]
  simp only [runGatedStages, hacct, hwl, hhit]
  simp

/-- C9, witness: the gate theorem at minute 600 with a cached watchlist,
account equity 9600 and a tripped stored risk state. -/
theorem c9_daily_max_loss_gate_witness :
    (¬(600 : ℤ) < 9 * 60 + 24) ∧ (¬(11 : ℤ) * 60 < 600) ∧
    demoRunInputs.account = some ⟨"9600"⟩ ∧
    (getOrBuildMasterWatchlist demoRunInputs.wlState demoRunInputs.nyDayKey
      demoRunInputs.apiKeyPresent demoRunInputs.snapshot
      demoRunInputs.cfg).2.1 ≠ [] ∧
    (handleGetOrUpdate demoRunInputs.doState demoRunInputs.nyDayKey
      (.num (parseFloatJs (Account.mk "9600").equity))
      (.num (.num demoRunInputs.dailyMaxLossPct))).2.hitDailyMaxLoss = true ∧
    runBotOnce false 600 demoRunInputs =
      (⟨true, some "daily-max-loss-hit",
        some (handleGetOrUpdate demoRunInputs.doState demoRunInputs.nyDayKey
          (.num (parseFloatJs (Account.mk "9600").equity))
          (.num (.num demoRunInputs.dailyMaxLossPct))).2, none, none, none⟩,
       ⟨(getOrBuildMasterWatchlist demoRunInputs.wlState demoRunInputs.nyDayKey
          demoRunInputs.apiKeyPresent demoRunInputs.snapshot
          demoRunInputs.cfg).2.2, 0, 0⟩) :=
  ⟨by decide, by decide, rfl, by decide, by decide,
   c9_daily_max_loss_gate 600 demoRunInputs ⟨"9600"⟩ (by decide) (by decide)
     rfl (by decide) (by decide)⟩

/-- C10: the entry window is closed at both ends — a non-forced run is
rejected with "too-early" exactly when the exchange-local minute count
is strictly below 09:24 (564) and with "too-late" exactly when it is
strictly above 11:00 (660); at 564 or 660 (and anywhere in between) the
run proceeds to the watchlist and risk-gate stages. -/
theorem c10_entry_window_closed (m : ℤ) (I : RunInputs) :
    ((runBotOnce false m I).1.reason = some "too-early" ↔ m < 9 * 60 + 24) ∧
    ((runBotOnce false m I).1.reason = some "too-late" ↔ 11 * 60 < m) ∧
    (¬m < 9 * 60 + 24 → ¬11 * 60 < m →
      runBotOnce false m I = runGatedStages false I) := by
  by_cases h1 : m < 9 * 60 + 24
  · have heq : runBotOnce false m I =
        (bareResult true "too-early", ⟨false, 0, 0⟩) := by
      simp only [runBotOnce]
      rw [if_pos ⟨by simp, h1⟩]
    rw [heq]
    exact ⟨iff_of_true rfl h1, iff_of_false (by decide) (by omega),
      fun h => (h h1).elim⟩
  · by_cases h2 : 11 * 60 < m
    · have heq : runBotOnce false m I =
          (bareResult true "too-late", ⟨false, 0, 0⟩) := by
        simp only [runBotOnce]
        rw [if_neg (fun h => h1 h.2), if_pos ⟨by simp, h2⟩]
      rw [heq]
      exact ⟨iff_of_false (by decide) h1, iff_of_true rfl h2,
        fun _ h => (h h2).elim⟩
    · have heq := runBotOnce_in_window m I h1 h2 false
      have hne := runGatedStages_reason_ne_window false I
      rw [heq]
      exact ⟨iff_of_false hne.1 h1, iff_of_false hne.2 h2, fun _ _ => rfl⟩

/-- C10, witness: at exactly 09:24 (564) and exactly 11:00 (660) a
non-forced run reaches the gated stages. -/
theorem c10_entry_window_closed_witness :
    (¬(564 : ℤ) < 9 * 60 + 24) ∧ (¬(11 : ℤ) * 60 < 564) ∧
    runBotOnce false 564 demoRunInputs = runGatedStages false demoRunInputs ∧
    (¬(660 : ℤ) < 9 * 60 + 24) ∧ (¬(11 : ℤ) * 60 < 660) ∧
    runBotOnce false 660 demoRunInputs = runGatedStages false demoRunInputs :=
  ⟨by decide, by decide,
   (c10_entry_window_closed 564 demoRunInputs).2.2 (by decide) (by decide),
   by decide, by decide,
   (c10_entry_window_closed 660 demoRunInputs).2.2 (by decide) (by decide)⟩

end ClaimProofs

end TradingBot
